import Mathlib

/-!
Shallow embedding of the mlx5 kTLS receive-side resynchronization engine
(`drivers/net/ethernet/mellanox/mlx5/core/en_accel/ktls_rx.c`).

Each Lean definition mirrors one C function of that file.  Hardware,
DMA-mapping and allocation outcomes that the C code observes through return
values are passed in as explicit boolean parameters (failure injection);
descriptor posting is modelled as appending to a list of work-queue entries;
statistics counters are natural numbers.
-/

namespace KtlsRx

/-- `errno` value `ENOMEM` (allocation failure), returned negated. -/
def ENOMEM : Int := 12

/-- `errno` value `ENOSPC` (no room in the submission queue), returned negated. -/
def ENOSPC : Int := 28

/-- `MLX5E_TLS_PROGRESS_PARAMS_RECORD_TRACKER_STATE_TRACKING` from the driver
header (the header is not part of the surveyed file; only the distinctness of
the enum values matters here). -/
def TRACKER_STATE_TRACKING : Nat := 1

/-- `MLX5E_TLS_PROGRESS_PARAMS_AUTH_STATE_NO_OFFLOAD` from the driver header. -/
def AUTH_STATE_NO_OFFLOAD : Nat := 0

/-- The per-receive-queue statistics counters (`struct mlx5e_rq_stats`) that
`ktls_rx.c` touches on the paths modelled here. -/
structure RqStats where
  tls_resync_req_skip : Nat
  tls_resync_req_end : Nat
  tls_resync_res_ok : Nat
  tls_resync_res_skip : Nat
  tls_ctx : Nat
  tls_del : Nat
  deriving Repr, DecidableEq

/-- All-zero statistics block. -/
def RqStats.zero : RqStats := ⟨0, 0, 0, 0, 0, 0⟩

/-- The slice of `struct tls12_crypto_info_aes_gcm_128` the resync engine
writes: the `rec_seq` record-sequence bytes, read as one number. -/
structure CryptoInfo where
  rec_seq : Nat
  deriving Repr, DecidableEq

/-- `struct mlx5e_ktls_rx_resync_ctx`: the Resync Session embedded in the
Offload Context. -/
structure ResyncCtx where
  refcnt : Nat
  sw_rcd_sn_be : Nat
  seq : Nat
  deriving Repr, DecidableEq

/-- `struct mlx5e_ktls_offload_context_rx`: the per-connection Offload
Context.  `deleting` is the `MLX5E_PRIV_RX_FLAG_DELETING` bit;
`add_ctx_completions` counts `complete(&priv_rx->add_ctx)` signals. -/
structure OffloadCtxRx where
  crypto_info : CryptoInfo
  deleting : Bool
  tirn : Nat
  key_id : Nat
  rxq : Nat
  resync : ResyncCtx
  rule : Option Nat
  add_ctx_completions : Nat
  deriving Repr, DecidableEq

/-- A hardware work descriptor, identified by its protocol step and the
fields the engine embeds in it. -/
inductive Wqe where
  | staticParams (start_seq key_id tirn rec_seq : Nat)
  | progressParams (next_record_tcp_sn : Nat)
  | getPsv (tirn : Nat)
  deriving Repr, DecidableEq

/-- The connection-level state visible outside the Offload Context: the TLS
driver-context slot (`__tls_driver_ctx`), the async submission queue, and the
channel statistics (which outlive the context). -/
structure ConnState where
  slot : Option OffloadCtxRx
  sq : List Wqe
  stats : RqStats
  deriving Repr, DecidableEq

/-- `post_static_params`: posts one install-static-parameters descriptor
carrying `priv_rx->resync.seq` as the starting TCP sequence number, or fails
with `-ENOSPC` when the queue has no room. -/
def post_static_params (room : Bool) (priv_rx : OffloadCtxRx) (sq : List Wqe) :
    Except Int (List Wqe) :=
  if room then
    .ok (sq ++ [.staticParams priv_rx.resync.seq priv_rx.key_id priv_rx.tirn
                  priv_rx.crypto_info.rec_seq])
  else
    .error (-ENOSPC)

/-- `post_progress_params`: posts one install-progress-parameters descriptor
seeded at `next_record_tcp_sn`, or fails with `-ENOSPC`. -/
def post_progress_params (room : Bool) (next_record_tcp_sn : Nat) (sq : List Wqe) :
    Except Int (List Wqe) :=
  if room then .ok (sq ++ [.progressParams next_record_tcp_sn])
  else .error (-ENOSPC)

/-- `resync_handle_seq_match`: copies the session's software record sequence
into the crypto info, re-posts the static-parameters descriptor, and bumps
`tls_resync_res_ok` on success or `tls_resync_res_skip` on queue-full.  It
does not touch the session's reference count (the C comment states exactly
that).  Returns `(err, priv_rx, stats, sq)`. -/
def resync_handle_seq_match (priv_rx : OffloadCtxRx) (stats : RqStats)
    (room : Bool) (sq : List Wqe) : Int × OffloadCtxRx × RqStats × List Wqe :=
  let priv_rx2 := { priv_rx with crypto_info := ⟨priv_rx.resync.sw_rcd_sn_be⟩ }
  match post_static_params room priv_rx2 sq with
  | .error e =>
      (e, priv_rx2,
       { stats with tls_resync_res_skip := stats.tls_resync_res_skip + 1 }, sq)
  | .ok sq2 =>
      (0, priv_rx2,
       { stats with tls_resync_res_ok := stats.tls_resync_res_ok + 1 }, sq2)

/-- `mlx5e_ktls_rx_resync`: the authoritative-answer entry point (stimulus 2).
Looks up the driver context; when absent it returns with no effect.  Otherwise
it stores the caller's record number and sequence number into the Resync
Session and synchronously runs `resync_handle_seq_match`. -/
def mlx5e_ktls_rx_resync (st : ConnState) (seq rcd_sn : Nat) (room : Bool) :
    ConnState :=
  match st.slot with
  | none => st
  | some priv_rx =>
      let priv_rx := { priv_rx with
        resync := { priv_rx.resync with sw_rcd_sn_be := rcd_sn, seq := seq } }
      let r := resync_handle_seq_match priv_rx st.stats room st.sq
      { slot := some r.2.1, sq := r.2.2.2, stats := r.2.2.1 }

/-- Result of the GET_PSV completion handler: the sequence numbers forwarded
to the record-framing layer (`tls_offload_rx_resync_async_request_end`), the
updated statistics, the number of reference-count decrements performed, and
whether the response buffer was freed. -/
structure PsvCompletionResult where
  forwarded : List Nat
  stats : RqStats
  refDecs : Nat
  bufFreed : Bool
  deriving Repr, DecidableEq

/-- `mlx5e_ktls_handle_get_psv_completion`: the fetch-progress completion
step.  When the deletion flag is set it skips further action; otherwise it
inspects the hardware tracker/auth state pair and either forwards the
hardware sequence number (bumping `tls_resync_req_end`) or records a skip
(`tls_resync_req_skip`).  On every path it decrements the reference count
once and frees the response buffer once (the shared `out:` label). -/
def mlx5e_ktls_handle_get_psv_completion (deleting : Bool)
    (tracker_state auth_state hw_seq : Nat) (stats : RqStats) :
    PsvCompletionResult :=
  if deleting then
    ⟨[], stats, 1, true⟩
  else if tracker_state ≠ TRACKER_STATE_TRACKING ∨
          auth_state ≠ AUTH_STATE_NO_OFFLOAD then
    ⟨[], { stats with tls_resync_req_skip := stats.tls_resync_req_skip + 1 },
     1, true⟩
  else
    ⟨[hw_seq],
     { stats with tls_resync_req_end := stats.tls_resync_req_end + 1 },
     1, true⟩

/-- Primitive observable actions of the resync paths, in program order. -/
inductive Act where
  | refInc
  | refDec
  | queueWorkOk
  | queueWorkFailed
  | allocBuf
  | dmaMapBuf
  | freeBuf
  | postWqe (w : Wqe)
  | fsAddSk
  | installRule (r : Nat)
  | completeAddCtx
  | statReqSkip
  deriving Repr, DecidableEq

/-- `resync_queue_get_psv`: the fast-path (NAPI) decode-failure hand-off.
Returns the C function's boolean result together with the ordered trace of
actions it performs.  A missing context or a set deletion flag refuses with
no action; otherwise the reference count is incremented first, then the work
hand-off is attempted, and the count is decremented right away when
`queue_work` cannot schedule it. -/
def resync_queue_get_psv (slot : Option OffloadCtxRx) (queue_ok : Bool) :
    Bool × List Act :=
  match slot with
  | none => (false, [])
  | some priv_rx =>
      if priv_rx.deleting then (false, [])
      else if queue_ok then (true, [.refInc, .queueWorkOk])
      else (true, [.refInc, .queueWorkFailed, .refDec])

/-- `resync_post_get_progress_params`: the background worker's submission
step.  Allocates the response buffer, DMA-maps it, checks queue room, posts
the GET_PSV descriptor.  Mirrors the C error paths exactly: every `goto
err_out` bumps `tls_resync_req_skip` and returns without freeing the buffer
already allocated. -/
def resync_post_get_progress_params (alloc_ok dma_ok room : Bool)
    (tirn : Nat) : Except Int Unit × List Act :=
  if ¬alloc_ok then
    (.error (-ENOMEM), [.statReqSkip])
  else if ¬dma_ok then
    (.error (-ENOMEM), [.allocBuf, .statReqSkip])
  else if ¬room then
    (.error (-ENOSPC), [.allocBuf, .dmaMapBuf, .statReqSkip])
  else
    (.ok (), [.allocBuf, .dmaMapBuf, .postWqe (.getPsv tirn)])

/-- `resync_handle_work`: the background worker step.  Called with an
elevated reference count; decrements it when the deletion flag is set or when
no descriptor could be posted. -/
def resync_handle_work (deleting alloc_ok dma_ok room : Bool) (tirn : Nat) :
    List Act :=
  if deleting then [.refDec]
  else
    let r := resync_post_get_progress_params alloc_ok dma_ok room tirn
    match r.1 with
    | .error _ => r.2 ++ [.refDec]
    | .ok _ => r.2

/-- `accel_rule_handle_work`: the one-shot flow-install job.  `fs_add_result`
is the outcome of `mlx5e_accel_fs_add_sk` (`none` models `IS_ERR_OR_NULL`).
When the deletion flag is observed set it jumps straight to `out:`; on every
path it signals `complete(&priv_rx->add_ctx)` exactly once. -/
def accel_rule_handle_work (deleting : Bool) (fs_add_result : Option Nat) :
    List Act :=
  if deleting then [.completeAddCtx]
  else
    match fs_add_result with
    | some r => [.fsAddSk, .installRule r, .completeAddCtx]
    | none => [.fsAddSk, .completeAddCtx]

/-- Resource acquisition/release events of `mlx5e_ktls_add_rx`, in program
order. -/
inductive ResEvent where
  | allocCtx
  | createKey
  | registerCtx
  | createTir
  | postParamWqes
  | destroyTir
  | destroyKey
  | freeCtx
  deriving Repr, DecidableEq

/-- Maps a release event to the acquisition it undoes. -/
def ResEvent.releaseOf : ResEvent → Option ResEvent
  | .destroyTir => some .createTir
  | .destroyKey => some .createKey
  | .freeCtx => some .allocCtx
  | _ => none

/-- Acquisition events (context registration is not a resource acquisition in
the release-pairing sense; the source has no unregister call). -/
def ResEvent.isAcquire : ResEvent → Bool
  | .allocCtx => true
  | .createKey => true
  | .createTir => true
  | _ => false

/-- The releases performed by a trace are exactly its acquisitions, undone in
reverse acquisition order. -/
def releasedInReverseOrder (tr : List ResEvent) : Prop :=
  tr.filterMap ResEvent.releaseOf = (tr.filter ResEvent.isAcquire).reverse

instance (tr : List ResEvent) : Decidable (releasedInReverseOrder tr) := by
  unfold releasedInReverseOrder; infer_instance

/-- Representative `errno` for a device-rejected request (`EINVAL`); the
claims do not depend on the exact device error value. -/
def EINVAL : Int := 22

/-- `post_rx_param_wqes`: posts the initial descriptor pair (static
parameters carrying `priv_rx->resync.seq`, then progress parameters seeded at
the caller's starting sequence).  On either `-ENOSPC` it bumps
`tls_resync_req_skip`, fires `complete(&priv_rx->add_ctx)` and returns the
error without ringing the doorbell, so no descriptor is submitted.  Returns
`(err, stats, sq, completions fired)`. -/
def post_rx_param_wqes (room_static room_progress : Bool)
    (priv_rx : OffloadCtxRx) (stats : RqStats) (next_record_tcp_sn : Nat)
    (sq : List Wqe) : Int × RqStats × List Wqe × Nat :=
  match post_static_params room_static priv_rx sq with
  | .error e =>
      (e, { stats with tls_resync_req_skip := stats.tls_resync_req_skip + 1 },
       sq, 1)
  | .ok sq1 =>
      match post_progress_params room_progress next_record_tcp_sn sq1 with
      | .error e =>
          (e, { stats with
                  tls_resync_req_skip := stats.tls_resync_req_skip + 1 },
           sq, 1)
      | .ok sq2 => (0, stats, sq2, 0)

/-- `mlx5e_ktls_add_rx`: the create path.  Failure injection: `alloc_ok`
(the context `kzalloc`), `key_ok` (`mlx5_ktls_create_key`), `tir_ok`
(`mlx5e_ktls_create_tir`), `room_static`/`room_progress` (submission-queue
room for the initial descriptor pair).  Mirrors the source exactly: the
context is registered in the driver-context slot *before* TIR creation, and
the error unwind (`err_post_wqes`/`err_create_tir`/`err_create_key`) destroys
the TIR, then the key, then frees the context — it never clears the slot.
Returns `(err, state, resource-event trace)`. -/
def mlx5e_ktls_add_rx (st : ConnState)
    (crypto_rec_seq key_id tirn rxq start_offload_tcp_sn : Nat)
    (alloc_ok key_ok tir_ok room_static room_progress : Bool) :
    Int × ConnState × List ResEvent :=
  if ¬alloc_ok then (-ENOMEM, st, [])
  else if ¬key_ok then (-EINVAL, st, [.allocCtx, .freeCtx])
  else
    let priv_rx : OffloadCtxRx :=
      { crypto_info := ⟨crypto_rec_seq⟩, deleting := false, tirn := tirn,
        key_id := key_id, rxq := rxq, resync := ⟨1, 0, 0⟩, rule := none,
        add_ctx_completions := 0 }
    let st1 := { st with slot := some priv_rx }
    if ¬tir_ok then
      (-EINVAL, st1,
       [.allocCtx, .createKey, .registerCtx, .destroyKey, .freeCtx])
    else
      let r := post_rx_param_wqes room_static room_progress priv_rx st1.stats
                 start_offload_tcp_sn st1.sq
      if r.1 ≠ 0 then
        (r.1, { st1 with stats := r.2.1, sq := r.2.2.1 },
         [.allocCtx, .createKey, .registerCtx, .createTir,
          .destroyTir, .destroyKey, .freeCtx])
      else
        (0, { st1 with
                stats := { r.2.1 with tls_ctx := r.2.1.tls_ctx + 1 },
                sq := r.2.2.1 },
         [.allocCtx, .createKey, .registerCtx, .createTir, .postParamWqes])

/-- `MLX5E_KTLS_RX_RESYNC_TIMEOUT` (msecs). -/
def MLX5E_KTLS_RX_RESYNC_TIMEOUT : Nat := 20000

/-- The `msleep(20)` interval between refcount polls in `wait_for_resync`. -/
def resyncPollSleepMs : Nat := 20

/-- The do/while poll loop of `wait_for_resync`.  `refcntAt i` is the value
the i-th `refcount_read` observes (the count evolves concurrently as
outstanding completions finish); `fuel` is how many more sleep-then-repoll
rounds fit before `exp_time`.  Returns the index of the last poll performed
and whether the timeout warning fired. -/
def waitLoop (refcntAt : Nat → Nat) (i fuel : Nat) : Nat × Bool :=
  if refcntAt i = 1 then (i, false)
  else
    match fuel with
    | 0 => (i, true)
    | fuel' + 1 => waitLoop refcntAt (i + 1) fuel'

/-- `wait_for_resync`: polls the Resync Session reference count every 20 ms
until it reads 1, for at most 20 seconds.  Poll `i` happens at time
`20 * i` ms; the do/while re-enters while `jiffies < exp_time`, so polls run
at 0, 20, …, 19980 ms — 1000 polls in all.  On timeout it warns and returns
(teardown proceeds anyway). -/
def wait_for_resync (refcntAt : Nat → Nat) : Nat × Bool :=
  waitLoop refcntAt 0 (MLX5E_KTLS_RX_RESYNC_TIMEOUT / resyncPollSleepMs - 1)

/-- Observable outcome of one `mlx5e_ktls_del_rx` call. -/
structure DelResult where
  st : ConnState
  waitedForAddCtx : Bool
  resyncRefReleased : Bool
  refcntAfterCancel : Nat
  polls : Nat
  warned : Bool
  deriving Repr, DecidableEq

/-- `mlx5e_ktls_del_rx`: the destroy path.  `rulePending` / `resyncPending`
are the `cancel_work_sync` results for the flow-install and resync work
items (`true` = the work was still pending and got cancelled before
running); `refcntAt` gives the reference-count value each poll of
`wait_for_resync` observes.  The source reads the driver-context slot and
immediately does `set_bit(..., priv_rx->flags)`; when the slot is null (as
it is after a previous `mlx5e_ktls_del_rx` already cleared it) that is a
null-pointer dereference, modelled as `none`. -/
def mlx5e_ktls_del_rx (st : ConnState) (rulePending resyncPending : Bool)
    (refcntAt : Nat → Nat) : Option DelResult :=
  match st.slot with
  | none => none
  | some priv_rx =>
      let priv_rx := { priv_rx with deleting := true }
      let priv_rx :=
        if resyncPending then
          { priv_rx with resync :=
              { priv_rx.resync with refcnt := priv_rx.resync.refcnt - 1 } }
        else priv_rx
      let w := wait_for_resync refcntAt
      some { st := { slot := none, sq := st.sq,
                     stats := { st.stats with
                                  tls_del := st.stats.tls_del + 1 } },
             waitedForAddCtx := !rulePending,
             resyncRefReleased := resyncPending,
             refcntAfterCancel := priv_rx.resync.refcnt,
             polls := w.1,
             warned := w.2 }

/-! ### Reference-count protocol (claim C1)

A transition system over one connection's Resync Session, covering every
increment/decrement site in the source: `resync_queue_get_psv` (fast path),
`resync_handle_work` (background worker), the GET_PSV completion, and the
`mlx5e_ktls_del_rx` cancel/teardown path. -/

/-- Abstract protocol state of one connection: whether the Offload Context
memory is still allocated, the deletion flag, the Resync Session reference
count, whether the resync work item is queued but not yet run, and how many
GET_PSV descriptors are outstanding. -/
structure ResyncProto where
  alive : Bool
  deleting : Bool
  refcnt : Nat
  workQueued : Bool
  psvOutstanding : Nat
  deriving Repr, DecidableEq

/-- State right after `resync_init`: one implicit self-reference. -/
def ResyncProto.start : ResyncProto :=
  { alive := true, deleting := false, refcnt := 1, workQueued := false,
    psvOutstanding := 0 }

/-- One protocol step, each constructor mirroring one control-flow path of
the source that touches `resync->refcnt`. -/
inductive Step : ResyncProto → ResyncProto → Prop where
  /-- `resync_queue_get_psv`, deletion flag clear, `queue_work` succeeds:
  `refcount_inc` then the work item becomes pending. -/
  | queuePsvOk (s : ResyncProto) :
      s.alive = true → s.deleting = false → s.workQueued = false →
      Step s { s with refcnt := s.refcnt + 1, workQueued := true }
  /-- `resync_queue_get_psv` when the work item is already queued:
  `refcount_inc` immediately followed by the compensating `refcount_dec`
  because `queue_work` returns false. -/
  | queuePsvBusy (s : ResyncProto) :
      s.alive = true → s.deleting = false → s.workQueued = true →
      Step s s
  /-- `resync_handle_work` observes the deletion flag set: it decrements and
  returns. -/
  | workRunDeleting (s : ResyncProto) :
      s.alive = true → s.workQueued = true → s.deleting = true →
      Step s { s with workQueued := false, refcnt := s.refcnt - 1 }
  /-- `resync_handle_work` posts the GET_PSV descriptor: the reference is
  handed over to the outstanding hardware operation. -/
  | workRunPosted (s : ResyncProto) :
      s.alive = true → s.workQueued = true → s.deleting = false →
      Step s { s with workQueued := false,
                      psvOutstanding := s.psvOutstanding + 1 }
  /-- `resync_handle_work` fails to post (allocation, DMA mapping or queue
  room): it decrements and returns. -/
  | workRunPostFailed (s : ResyncProto) :
      s.alive = true → s.workQueued = true → s.deleting = false →
      Step s { s with workQueued := false, refcnt := s.refcnt - 1 }
  /-- `mlx5e_ktls_handle_get_psv_completion`: every branch joins at `out:`
  and decrements exactly once. -/
  | psvComplete (s : ResyncProto) :
      s.alive = true → 0 < s.psvOutstanding →
      Step s { s with psvOutstanding := s.psvOutstanding - 1,
                      refcnt := s.refcnt - 1 }
  /-- `mlx5e_ktls_del_rx` start: sets the deletion flag and runs
  `cancel_work_sync(&resync->work)`, decrementing iff a pending work item was
  cancelled. -/
  | delStart (s : ResyncProto) :
      s.alive = true → s.deleting = false →
      Step s { s with deleting := true, workQueued := false,
                      refcnt := if s.workQueued then s.refcnt - 1
                                else s.refcnt }
  /-- `mlx5e_ktls_del_rx` end: after `wait_for_resync` (drained or timed
  out) the context memory is freed. -/
  | delFree (s : ResyncProto) :
      s.alive = true → s.deleting = true →
      Step s { s with alive := false }

/-- Reachability from the freshly initialized session. -/
def Reachable (s : ResyncProto) : Prop :=
  Relation.ReflTransGen Step ResyncProto.start s

/-- The reference-count accounting invariant: the count equals the one
implicit self-reference plus one reference per pending work item plus one per
outstanding GET_PSV operation. -/
def RefInv (s : ResyncProto) : Prop :=
  s.refcnt = 1 + (if s.workQueued then 1 else 0) + s.psvOutstanding

instance (s : ResyncProto) : Decidable (RefInv s) := by
  unfold RefInv; infer_instance

/-! ### Claim theorems -/

/-- Claim C10: when the connection's TLS context has no registered receive
Offload Context (driver-context slot null), `mlx5e_ktls_rx_resync` returns
immediately with no observable effect: no session field written, no
descriptor posted, no statistic updated. -/
theorem c10_rx_resync_no_ctx_noop (st : ConnState) (seq rcd_sn : Nat)
    (room : Bool) (h : st.slot = none) :
    mlx5e_ktls_rx_resync st seq rcd_sn room = st := by
  unfold mlx5e_ktls_rx_resync
  rw [h]

/-- Witness for C10 at a concrete empty-slot state. -/
theorem c10_witness :
    mlx5e_ktls_rx_resync ⟨none, [], RqStats.zero⟩ 1050 77 true
      = ⟨none, [], RqStats.zero⟩ :=
  c10_rx_resync_no_ctx_noop ⟨none, [], RqStats.zero⟩ 1050 77 true rfl

/-- Claim C6: `mlx5e_ktls_rx_resync` with sequence number `S` and record
number `R` copies both into the Resync Session, synchronously re-issues
exactly one install-static-parameters descriptor whose embedded starting
sequence equals `S` (when the queue has room), records success or failure in
the statistics, and never modifies the resync-session reference count. -/
theorem c6_rx_resync_reissues_static_params (st : ConnState)
    (ctx : OffloadCtxRx) (S R : Nat) (room : Bool)
    (h : st.slot = some ctx) :
    ∃ ctx2,
      (mlx5e_ktls_rx_resync st S R room).slot = some ctx2 ∧
      ctx2.resync.seq = S ∧
      ctx2.resync.sw_rcd_sn_be = R ∧
      ctx2.crypto_info.rec_seq = R ∧
      ctx2.resync.refcnt = ctx.resync.refcnt ∧
      (room = true →
        (mlx5e_ktls_rx_resync st S R room).sq
          = st.sq ++ [.staticParams S ctx.key_id ctx.tirn R] ∧
        (mlx5e_ktls_rx_resync st S R room).stats
          = { st.stats with
                tls_resync_res_ok := st.stats.tls_resync_res_ok + 1 }) ∧
      (room = false →
        (mlx5e_ktls_rx_resync st S R room).sq = st.sq ∧
        (mlx5e_ktls_rx_resync st S R room).stats
          = { st.stats with
                tls_resync_res_skip := st.stats.tls_resync_res_skip + 1 }) := by
  cases room <;>
    simp [mlx5e_ktls_rx_resync, resync_handle_seq_match, post_static_params, h]

/-- Witness for C6: the spec's own scenario, `S = 1050`. -/
theorem c6_witness :
    ∃ ctx2,
      (mlx5e_ktls_rx_resync
          ⟨some ⟨⟨9⟩, false, 3, 2, 0, ⟨1, 0, 0⟩, none, 0⟩, [], RqStats.zero⟩
          1050 77 true).slot = some ctx2 ∧
      ctx2.resync.seq = 1050 ∧
      ctx2.resync.sw_rcd_sn_be = 77 ∧
      ctx2.crypto_info.rec_seq = 77 ∧
      ctx2.resync.refcnt =
        (OffloadCtxRx.mk ⟨9⟩ false 3 2 0 ⟨1, 0, 0⟩ none 0).resync.refcnt ∧
      (true = true →
        (mlx5e_ktls_rx_resync
            ⟨some ⟨⟨9⟩, false, 3, 2, 0, ⟨1, 0, 0⟩, none, 0⟩, [], RqStats.zero⟩
            1050 77 true).sq
          = [] ++ [.staticParams 1050 2 3 77] ∧
        (mlx5e_ktls_rx_resync
            ⟨some ⟨⟨9⟩, false, 3, 2, 0, ⟨1, 0, 0⟩, none, 0⟩, [], RqStats.zero⟩
            1050 77 true).stats
          = { RqStats.zero with
                tls_resync_res_ok := RqStats.zero.tls_resync_res_ok + 1 }) ∧
      (true = false →
        (mlx5e_ktls_rx_resync
            ⟨some ⟨⟨9⟩, false, 3, 2, 0, ⟨1, 0, 0⟩, none, 0⟩, [], RqStats.zero⟩
            1050 77 true).sq = [] ∧
        (mlx5e_ktls_rx_resync
            ⟨some ⟨⟨9⟩, false, 3, 2, 0, ⟨1, 0, 0⟩, none, 0⟩, [], RqStats.zero⟩
            1050 77 true).stats
          = { RqStats.zero with
                tls_resync_res_skip := RqStats.zero.tls_resync_res_skip + 1 }) :=
  c6_rx_resync_reissues_static_params
    ⟨some ⟨⟨9⟩, false, 3, 2, 0, ⟨1, 0, 0⟩, none, 0⟩, [], RqStats.zero⟩
    ⟨⟨9⟩, false, 3, 2, 0, ⟨1, 0, 0⟩, none, 0⟩ 1050 77 true rfl

/-- Counterexample for Claim C5: with the deletion flag set and the tracker
state not `TRACKING` — an "other state pair" — the completion handler
forwards nothing but also does *not* increment the skip statistic (it jumps
to `out:` before the state check), contradicting the claim's "for any other
state pair it … increments the skip statistic". -/
theorem c5_counterexample :
    (0 : Nat) ≠ TRACKER_STATE_TRACKING ∧
    (mlx5e_ktls_handle_get_psv_completion true 0 AUTH_STATE_NO_OFFLOAD 5
        RqStats.zero).forwarded = [] ∧
    (mlx5e_ktls_handle_get_psv_completion true 0 AUTH_STATE_NO_OFFLOAD 5
        RqStats.zero).stats.tls_resync_req_skip
      = RqStats.zero.tls_resync_req_skip := by
  decide

/-- Claim C5 (amended): the handler forwards the hardware sequence number
exactly once iff the tracker state is `TRACKING`, the auth state is
`NO_OFFLOAD`, and the deletion flag is clear; for any other state pair *with
the deletion flag clear* it forwards nothing and increments the skip
statistic; with the deletion flag set it forwards nothing and leaves the
statistics untouched.  On every branch the reference count is decremented
once and the response buffer freed once. -/
theorem c5_forward_iff_tracking_no_offload (deleting : Bool)
    (tr au seq : Nat) (st : RqStats) :
    (mlx5e_ktls_handle_get_psv_completion deleting tr au seq st).forwarded
      = (if tr = TRACKER_STATE_TRACKING ∧ au = AUTH_STATE_NO_OFFLOAD ∧
            deleting = false
         then [seq] else []) ∧
    (mlx5e_ktls_handle_get_psv_completion deleting tr au seq
        st).stats.tls_resync_req_skip
      = (if deleting = false ∧
            ¬(tr = TRACKER_STATE_TRACKING ∧ au = AUTH_STATE_NO_OFFLOAD)
         then st.tls_resync_req_skip + 1 else st.tls_resync_req_skip) ∧
    (mlx5e_ktls_handle_get_psv_completion deleting tr au seq st).refDecs
      = 1 ∧
    (mlx5e_ktls_handle_get_psv_completion deleting tr au seq st).bufFreed
      = true := by
  cases deleting <;>
    by_cases h1 : tr = TRACKER_STATE_TRACKING <;>
    by_cases h2 : au = AUTH_STATE_NO_OFFLOAD <;>
    simp [mlx5e_ktls_handle_get_psv_completion, h1, h2]

/-- Claim C9: whenever the flow-install task runs, it signals the
installation-finished completion exactly once on every exit path, and when
the deletion flag is observed set it signals without attempting the steering
rule at all. -/
theorem c9_accel_rule_signals_once (deleting : Bool)
    (fs_add_result : Option Nat) :
    (accel_rule_handle_work deleting fs_add_result).count .completeAddCtx
      = 1 ∧
    accel_rule_handle_work true fs_add_result = [.completeAddCtx] := by
  cases deleting <;> cases fs_add_result <;>
    simp [accel_rule_handle_work]

/-- Claim C7: on a decode-failure stimulus for a located Offload Context,
the fast path refuses (no action at all) when the deletion flag is set;
otherwise it increments the reference count first, then attempts the
hand-off, and decrements immediately when `queue_work` cannot schedule it. -/
theorem c7_queue_get_psv_refcnt_protocol (ctx : OffloadCtxRx)
    (queue_ok : Bool) :
    (ctx.deleting = true →
        resync_queue_get_psv (some ctx) queue_ok = (false, [])) ∧
    (ctx.deleting = false → queue_ok = true →
        resync_queue_get_psv (some ctx) queue_ok
          = (true, [.refInc, .queueWorkOk])) ∧
    (ctx.deleting = false → queue_ok = false →
        resync_queue_get_psv (some ctx) queue_ok
          = (true, [.refInc, .queueWorkFailed, .refDec])) := by
  cases hq : queue_ok <;> cases hd : ctx.deleting <;>
    simp [resync_queue_get_psv, hd]

/-- Witness for C7: a live context whose hand-off fails gets the immediate
compensating decrement. -/
theorem c7_witness :
    resync_queue_get_psv (some ⟨⟨9⟩, false, 3, 2, 0, ⟨1, 0, 0⟩, none, 0⟩)
        false
      = (true, [.refInc, .queueWorkFailed, .refDec]) :=
  (c7_queue_get_psv_refcnt_protocol
      ⟨⟨9⟩, false, 3, 2, 0, ⟨1, 0, 0⟩, none, 0⟩ false).2.2 rfl rfl

/-- Claim C4 evaluated at its failing inputs: in
`resync_post_get_progress_params`, the DMA-mapping-failure path and the
queue-full path both `goto err_out` *without* freeing the response buffer
just allocated, so the buffer leaks (the claim — and the later upstream fix
— require it to be released on every path).  The caller
`resync_handle_work` still performs the reference-count decrement, so the
count stays balanced while the buffer is lost. -/
theorem c4_buffer_leak_on_submission_failure :
    (resync_post_get_progress_params true false true 7).1
      = .error (-ENOMEM) ∧
    (resync_post_get_progress_params true false true 7).2.count .allocBuf
      = 1 ∧
    (resync_post_get_progress_params true false true 7).2.count .freeBuf
      = 0 ∧
    (resync_post_get_progress_params true true false 7).2.count .allocBuf
      = 1 ∧
    (resync_post_get_progress_params true true false 7).2.count .freeBuf
      = 0 ∧
    resync_handle_work false true false true 7
      = [.allocBuf, .statReqSkip, .refDec] := by
  refine ⟨rfl, ?_, ?_, ?_, ?_, rfl⟩ <;> decide

/-- Counterexample for Claim C2: when TIR creation fails,
`mlx5e_ktls_add_rx` returns an error, yet the driver-context slot still
holds the (now freed) Offload Context — the error unwind never clears the
registration made by `mlx5e_set_ktls_rx_priv_ctx` — contradicting "no
Offload Context remains registered as the connection's active offload state
after the call returns". -/
theorem c2_counterexample :
    (mlx5e_ktls_add_rx ⟨none, [], RqStats.zero⟩ 1 2 3 0 1000
        true true false true true).1 ≠ 0 ∧
    (mlx5e_ktls_add_rx ⟨none, [], RqStats.zero⟩ 1 2 3 0 1000
        true true false true true).2.1.slot ≠ none ∧
    ResEvent.freeCtx ∈ (mlx5e_ktls_add_rx ⟨none, [], RqStats.zero⟩ 1 2 3 0
        1000 true true false true true).2.2 := by
  decide

/-- Claim C2 (amended): on every failure of `mlx5e_ktls_add_rx` — allocation
failure, hardware rejection of key or TIR creation, or no room for the
initial descriptor pair — every partially acquired resource is released in
reverse acquisition order and the context memory is freed; however, on
failures occurring after registration (TIR creation and descriptor posting)
the driver-context slot is not cleared and keeps the stale context pointer. -/
theorem c2_failure_unwind (st : ConnState)
    (crs kid tn rq sn : Nat) (a k t rs rp : Bool)
    (h : (mlx5e_ktls_add_rx st crs kid tn rq sn a k t rs rp).1 ≠ 0) :
    releasedInReverseOrder
      (mlx5e_ktls_add_rx st crs kid tn rq sn a k t rs rp).2.2 ∧
    (ResEvent.allocCtx
        ∈ (mlx5e_ktls_add_rx st crs kid tn rq sn a k t rs rp).2.2 →
      ResEvent.freeCtx
        ∈ (mlx5e_ktls_add_rx st crs kid tn rq sn a k t rs rp).2.2) ∧
    (ResEvent.registerCtx
        ∉ (mlx5e_ktls_add_rx st crs kid tn rq sn a k t rs rp).2.2 →
      (mlx5e_ktls_add_rx st crs kid tn rq sn a k t rs rp).2.1.slot
        = st.slot) ∧
    (ResEvent.registerCtx
        ∈ (mlx5e_ktls_add_rx st crs kid tn rq sn a k t rs rp).2.2 →
      ∃ c, (mlx5e_ktls_add_rx st crs kid tn rq sn a k t rs rp).2.1.slot
        = some c) := by
  cases a <;> cases k <;> cases t <;> cases rs <;> cases rp <;>
    simp_all [mlx5e_ktls_add_rx, post_rx_param_wqes, post_static_params,
      post_progress_params, releasedInReverseOrder, ENOMEM, EINVAL,
      ENOSPC] <;>
    decide

/-- Witness for C2 (amended): the key-creation failure case releases exactly
what was acquired, in reverse order, and leaves the slot unregistered. -/
theorem c2_witness :
    releasedInReverseOrder
      (mlx5e_ktls_add_rx ⟨none, [], RqStats.zero⟩ 1 2 3 0 1000
          true false true true true).2.2 ∧
    (ResEvent.allocCtx ∈ (mlx5e_ktls_add_rx ⟨none, [], RqStats.zero⟩ 1 2 3 0
        1000 true false true true true).2.2 →
      ResEvent.freeCtx ∈ (mlx5e_ktls_add_rx ⟨none, [], RqStats.zero⟩ 1 2 3 0
        1000 true false true true true).2.2) ∧
    (ResEvent.registerCtx ∉ (mlx5e_ktls_add_rx ⟨none, [], RqStats.zero⟩
        1 2 3 0 1000 true false true true true).2.2 →
      (mlx5e_ktls_add_rx ⟨none, [], RqStats.zero⟩ 1 2 3 0 1000
          true false true true true).2.1.slot
        = (ConnState.mk none [] RqStats.zero).slot) ∧
    (ResEvent.registerCtx ∈ (mlx5e_ktls_add_rx ⟨none, [], RqStats.zero⟩
        1 2 3 0 1000 true false true true true).2.2 →
      ∃ c, (mlx5e_ktls_add_rx ⟨none, [], RqStats.zero⟩ 1 2 3 0 1000
          true false true true true).2.1.slot = some c) :=
  c2_failure_unwind ⟨none, [], RqStats.zero⟩ 1 2 3 0 1000
    true false true true true (by decide)

/-- Counterexample for Claim C3: `mlx5e_ktls_del_rx` is not idempotent.  A
first call on a registered context succeeds (clearing the driver-context
slot); calling it a second time finds a null slot and immediately does
`set_bit(MLX5E_PRIV_RX_FLAG_DELETING, priv_rx->flags)` through the null
pointer — modelled as `none` (a crash), not a safe no-op. -/
theorem c3_counterexample :
    mlx5e_ktls_del_rx
        ⟨some ⟨⟨9⟩, false, 3, 2, 0, ⟨1, 0, 0⟩, none, 0⟩, [], RqStats.zero⟩
        false false (fun _ => 1)
      = some ⟨⟨none, [], ⟨0, 0, 0, 0, 0, 1⟩⟩, true, false, 1, 0, false⟩ ∧
    mlx5e_ktls_del_rx ⟨none, [], ⟨0, 0, 0, 0, 0, 1⟩⟩ false false
        (fun _ => 1)
      = none := by
  constructor <;> rfl

/-- Claim C3 (amended): a first `mlx5e_ktls_del_rx` call on a registered
context whose resync was never triggered (reference count observed already
at 1) is safe and completes without waiting — zero extra polls, no timeout
warning — and unregisters the context; but the operation is not idempotent:
repeating the call on the resulting connection state dereferences the null
driver-context slot. -/
theorem c3_del_rx_no_wait_not_idempotent (st : ConnState)
    (ctx : OffloadCtxRx) (rulePending : Bool) (refcntAt : Nat → Nat)
    (h : st.slot = some ctx) (h1 : refcntAt 0 = 1) :
    ∃ d, mlx5e_ktls_del_rx st rulePending false refcntAt = some d ∧
      d.polls = 0 ∧ d.warned = false ∧ d.st.slot = none ∧
      mlx5e_ktls_del_rx d.st rulePending false refcntAt = none := by
  have hw : wait_for_resync refcntAt = (0, false) := by
    unfold wait_for_resync waitLoop
    rw [if_pos h1]
  have hdel : mlx5e_ktls_del_rx st rulePending false refcntAt
      = some { st := ⟨none, st.sq,
                      { st.stats with tls_del := st.stats.tls_del + 1 }⟩,
               waitedForAddCtx := !rulePending,
               resyncRefReleased := false,
               refcntAfterCancel := ctx.resync.refcnt,
               polls := 0, warned := false } := by
    simp [mlx5e_ktls_del_rx, h, hw]
  exact ⟨_, hdel, rfl, rfl, rfl, rfl⟩

/-- Witness for C3 (amended) at a concrete quiescent connection. -/
theorem c3_witness :
    ∃ d, mlx5e_ktls_del_rx
        ⟨some ⟨⟨9⟩, false, 3, 2, 0, ⟨1, 0, 0⟩, none, 0⟩, [], RqStats.zero⟩
        false false (fun _ => 1) = some d ∧
      d.polls = 0 ∧ d.warned = false ∧ d.st.slot = none ∧
      mlx5e_ktls_del_rx d.st false false (fun _ => 1) = none :=
  c3_del_rx_no_wait_not_idempotent
    ⟨some ⟨⟨9⟩, false, 3, 2, 0, ⟨1, 0, 0⟩, none, 0⟩, [], RqStats.zero⟩
    ⟨⟨9⟩, false, 3, 2, 0, ⟨1, 0, 0⟩, none, 0⟩ false (fun _ => 1) rfl rfl

/-- The poll loop never polls past its fuel budget. -/
theorem waitLoop_le (refcntAt : Nat → Nat) :
    ∀ fuel i, (waitLoop refcntAt i fuel).1 ≤ i + fuel
  | 0, i => by unfold waitLoop; split <;> simp
  | fuel + 1, i => by
      unfold waitLoop
      split
      · simp
      · have := waitLoop_le refcntAt fuel (i + 1)
        simpa using this.trans (by omega)

/-- When every poll in the budget reads a count above 1, the loop exhausts
its fuel and reports the timeout. -/
theorem waitLoop_timeout (refcntAt : Nat → Nat) :
    ∀ fuel i, (∀ j, i ≤ j → j ≤ i + fuel → refcntAt j ≠ 1) →
      waitLoop refcntAt i fuel = (i + fuel, true)
  | 0, i, h => by
      unfold waitLoop
      rw [if_neg (h i le_rfl (by omega))]
      rfl
  | fuel + 1, i, h => by
      unfold waitLoop
      rw [if_neg (h i le_rfl (by omega))]
      show waitLoop refcntAt (i + 1) fuel = (i + (fuel + 1), true)
      rw [waitLoop_timeout refcntAt fuel (i + 1)
        (fun j hj hj2 => h j (by omega) (by omega))]
      congr 1
      omega

/-- The loop returns, without warning, at the first poll that reads 1. -/
theorem waitLoop_first (refcntAt : Nat → Nat) (k : Nat) :
    ∀ fuel i, k ≤ fuel → (∀ j, i ≤ j → j < i + k → refcntAt j ≠ 1) →
      refcntAt (i + k) = 1 → waitLoop refcntAt i fuel = (i + k, false) := by
  induction k with
  | zero =>
      intro fuel i _ _ hk
      unfold waitLoop
      rw [Nat.add_zero] at hk
      rw [if_pos hk]
      rfl
  | succ k ih =>
      intro fuel i hkf hlt hk
      obtain ⟨fuel', rfl⟩ : ∃ f, fuel = f + 1 := ⟨fuel - 1, by omega⟩
      unfold waitLoop
      rw [if_neg (hlt i le_rfl (by omega))]
      show waitLoop refcntAt (i + 1) fuel' = (i + (k + 1), false)
      rw [ih fuel' (i + 1) (by omega)
        (fun j hj hj2 => hlt j (by omega) (by omega))
        (by rw [show i + 1 + k = i + (k + 1) from by omega]; exact hk)]
      congr 1
      omega

/-- Claim C8: destroy's drain of the resync reference count is a bounded
poll — at most 1000 polls 20 ms apart, i.e. at most the 20-second protocol
timeout — that returns as soon as a poll reads 1 (in particular immediately
when the count is already 1) and, if the count never drains, warns and lets
teardown proceed; and when the resync task had not started,
`cancel_work_sync` succeeds and `mlx5e_ktls_del_rx` releases the task's
reference instead of waiting for it. -/
theorem c8_del_rx_bounded_drain (st : ConnState) (ctx : OffloadCtxRx)
    (rulePending : Bool) (refcntAt : Nat → Nat) (i : Nat) :
    (resyncPollSleepMs * (wait_for_resync refcntAt).1 + resyncPollSleepMs
        ≤ MLX5E_KTLS_RX_RESYNC_TIMEOUT) ∧
    (refcntAt 0 = 1 → wait_for_resync refcntAt = (0, false)) ∧
    (i ≤ 999 → (∀ j, j < i → refcntAt j ≠ 1) → refcntAt i = 1 →
        wait_for_resync refcntAt = (i, false)) ∧
    ((∀ j, j ≤ 999 → refcntAt j ≠ 1) →
        wait_for_resync refcntAt = (999, true)) ∧
    (st.slot = some ctx →
        ∃ d, mlx5e_ktls_del_rx st rulePending true refcntAt = some d ∧
          d.resyncRefReleased = true ∧
          d.refcntAfterCancel = ctx.resync.refcnt - 1) := by
  have hfuel : MLX5E_KTLS_RX_RESYNC_TIMEOUT / resyncPollSleepMs - 1 = 999 :=
    by decide
  refine ⟨?_, ?_, ?_, ?_, ?_⟩
  · have := waitLoop_le refcntAt
      (MLX5E_KTLS_RX_RESYNC_TIMEOUT / resyncPollSleepMs - 1) 0
    unfold wait_for_resync
    rw [hfuel] at this ⊢
    simp only [resyncPollSleepMs, MLX5E_KTLS_RX_RESYNC_TIMEOUT]
    omega
  · intro h1
    unfold wait_for_resync waitLoop
    rw [if_pos h1]
  · intro hi hlt hk
    unfold wait_for_resync
    rw [hfuel]
    have := waitLoop_first refcntAt i 999 0 hi
      (fun j hj hj2 => hlt j (by omega)) (by simpa using hk)
    simpa using this
  · intro hall
    unfold wait_for_resync
    rw [hfuel]
    have := waitLoop_timeout refcntAt 999 0
      (fun j hj hj2 => hall j (by omega))
    simpa using this
  · intro h
    have hdel : mlx5e_ktls_del_rx st rulePending true refcntAt
        = some { st := ⟨none, st.sq,
                        { st.stats with tls_del := st.stats.tls_del + 1 }⟩,
                 waitedForAddCtx := !rulePending,
                 resyncRefReleased := true,
                 refcntAfterCancel := ctx.resync.refcnt - 1,
                 polls := (wait_for_resync refcntAt).1,
                 warned := (wait_for_resync refcntAt).2 } := by
      simp [mlx5e_ktls_del_rx, h]
    exact ⟨_, hdel, rfl, rfl⟩

/-- Witness for C8: the count drains at the third poll (t = 40 ms), so the
wait returns right there — long before the timeout — and a cancelled
pending task has its reference released. -/
theorem c8_witness :
    wait_for_resync (fun j => if j < 2 then 2 else 1) = (2, false) ∧
    ∃ d, mlx5e_ktls_del_rx
        ⟨some ⟨⟨9⟩, false, 3, 2, 0, ⟨2, 0, 0⟩, none, 0⟩, [], RqStats.zero⟩
        false true (fun j => if j < 2 then 2 else 1) = some d ∧
      d.resyncRefReleased = true ∧
      d.refcntAfterCancel
        = (OffloadCtxRx.mk ⟨9⟩ false 3 2 0 ⟨2, 0, 0⟩ none 0).resync.refcnt
            - 1 :=
  ⟨(c8_del_rx_bounded_drain ⟨none, [], RqStats.zero⟩
      ⟨⟨9⟩, false, 3, 2, 0, ⟨2, 0, 0⟩, none, 0⟩ false
      (fun j => if j < 2 then 2 else 1) 2).2.2.1 (by decide)
      (by decide) (by decide),
   (c8_del_rx_bounded_drain
      ⟨some ⟨⟨9⟩, false, 3, 2, 0, ⟨2, 0, 0⟩, none, 0⟩, [], RqStats.zero⟩
      ⟨⟨9⟩, false, 3, 2, 0, ⟨2, 0, 0⟩, none, 0⟩ false
      (fun j => if j < 2 then 2 else 1) 2).2.2.2.2 rfl⟩

/-- Every state reachable from a freshly initialized Resync Session
satisfies the accounting invariant. -/
theorem reachable_refInv (s : ResyncProto) (h : Reachable s) : RefInv s := by
  induction h with
  | refl => decide
  | tail _ hstep ih =>
      rename_i b c _
      cases hstep with
      | queuePsvOk ha hd hw =>
          unfold RefInv at ih ⊢
          simp [hw] at ih ⊢
          omega
      | queuePsvBusy ha hd hw => exact ih
      | workRunDeleting ha hw hd =>
          unfold RefInv at ih ⊢
          simp [hw] at ih ⊢
          omega
      | workRunPosted ha hw hd =>
          unfold RefInv at ih ⊢
          simp [hw] at ih ⊢
          omega
      | workRunPostFailed ha hw hd =>
          unfold RefInv at ih ⊢
          simp [hw] at ih ⊢
          omega
      | psvComplete ha hp =>
          unfold RefInv at ih ⊢
          cases hw : b.workQueued <;> simp [hw] at ih ⊢ <;> omega
      | delStart ha hd =>
          unfold RefInv at ih ⊢
          cases hw : b.workQueued <;> simp [hw] at ih ⊢ <;> omega
      | delFree ha hd =>
          unfold RefInv at ih ⊢
          exact ih

/-- Claim C1: along every interleaving of fast-path triggers, worker runs,
hardware completions and teardown on one connection, the Resync Session
reference count equals the one implicit self-reference plus exactly one
reference per asynchronous operation still outstanding (pending work item or
posted GET_PSV) — every increment is matched by exactly one decrement on
that operation's completion, early-exit and error paths included — and the
count therefore never drops below 1 while the Offload Context is alive. -/
theorem c1_refcnt_balanced (s : ResyncProto) (h : Reachable s) :
    s.refcnt = 1 + (if s.workQueued then 1 else 0) + s.psvOutstanding ∧
    1 ≤ s.refcnt := by
  have hinv := reachable_refInv s h
  unfold RefInv at hinv
  exact ⟨hinv, by omega⟩

/-- Witness for C1: the state after one fast-path trigger (count 2, work
pending) is reachable and satisfies the accounting. -/
theorem c1_witness :
    ({ alive := true, deleting := false, refcnt := 2, workQueued := true,
       psvOutstanding := 0 } : ResyncProto).refcnt
      = 1 + (if ({ alive := true, deleting := false, refcnt := 2,
                   workQueued := true, psvOutstanding := 0 } :
                   ResyncProto).workQueued then 1 else 0)
          + ({ alive := true, deleting := false, refcnt := 2,
               workQueued := true, psvOutstanding := 0 } :
               ResyncProto).psvOutstanding ∧
    1 ≤ ({ alive := true, deleting := false, refcnt := 2,
           workQueued := true, psvOutstanding := 0 } : ResyncProto).refcnt :=
  c1_refcnt_balanced _
    (Relation.ReflTransGen.single
      (Step.queuePsvOk ResyncProto.start rfl rfl rfl))

end KtlsRx
